import Mathlib

/-!
Verification of the `tmh_data_conversion` repository (SPSS .sav → Excel
converter) against its specification.

The embedding models, from `src/sav_to_excel.py`:
  * `spss_date_to_string` — the per-cell date decoder (seconds since
    1582-10-14, proleptic Gregorian, as Python `datetime` implements it);
  * `convert_sav_to_excel` — the single-file conversion engine: rename
    columns to their labels, apply the date decoder to the allow-listed
    date columns, write the table; every exception is caught internally;
  * `batch_convert_sav_to_excel` — the batch orchestrator;
  * the `__main__` path-resolution logic (directory expansion, extension
    filter, dedup + sort, empty-list exit).

File and parser effects are represented by explicit outcome values
(`ParseOutcome`, `WriteOutcome`) supplied by the environment, so the
control flow of the Python functions can be followed branch for branch.
-/

/-! ## Proleptic Gregorian calendar arithmetic

Python `datetime` uses the proleptic Gregorian calendar.  `daysFromCivil`
and `civilFromDays` are the standard civil-calendar/day-number conversions
(day 0 = 1970-01-01), written with floor division on `Int`. -/

/-- Day number (days since 1970-01-01) of a proleptic Gregorian date. -/
def daysFromCivil (y m d : Int) : Int :=
  let y' : Int := if m ≤ 2 then y - 1 else y
  let era : Int := Int.fdiv y' 400
  let yoe : Int := y' - era * 400
  let doy : Int := Int.fdiv (153 * (m + (if 2 < m then -3 else 9)) + 2) 5 + d - 1
  let doe : Int := yoe * 365 + Int.fdiv yoe 4 - Int.fdiv yoe 100 + doy
  era * 146097 + doe - 719468

/-- Proleptic Gregorian date (year, month, day) of a day number. -/
def civilFromDays (z : Int) : Int × Int × Int :=
  let z' : Int := z + 719468
  let era : Int := Int.fdiv z' 146097
  let doe : Int := z' - era * 146097
  let yoe : Int :=
    Int.fdiv (doe - Int.fdiv doe 1460 + Int.fdiv doe 36524 - Int.fdiv doe 146096) 365
  let y : Int := yoe + era * 400
  let doy : Int := doe - (365 * yoe + Int.fdiv yoe 4 - Int.fdiv yoe 100)
  let mp : Int := Int.fdiv (5 * doy + 2) 153
  let d : Int := doy - Int.fdiv (153 * mp + 2) 5 + 1
  let m : Int := mp + (if mp < 10 then 3 else -9)
  ((if m ≤ 2 then y + 1 else y), m, d)

/-- Left-pad the decimal form of a natural number with zeros to `width`. -/
def padNat (width : Nat) (n : Nat) : String :=
  let s := toString n
  String.mk (List.replicate (width - s.length) '0') ++ s

/-- Format a (year, month, day) triple as YYYY-MM-DD, mirroring
Python strftime with format string percent-Y dash percent-m dash percent-d. -/
def formatCivil (ymd : Int × Int × Int) : String :=
  padNat 4 ymd.1.toNat ++ "-" ++ padNat 2 ymd.2.1.toNat ++ "-" ++ padNat 2 ymd.2.2.toNat

/-- Day number of the SPSS epoch `datetime(1582, 10, 14)`. -/
def epochDay : Int := daysFromCivil 1582 10 14

/-- Day number of `datetime.min` (0001-01-01), the smallest Python datetime. -/
def pyMinDay : Int := daysFromCivil 1 1 1

/-- Day number of the date of `datetime.max` (9999-12-31), the largest Python datetime. -/
def pyMaxDay : Int := daysFromCivil 9999 12 31

/-! ## Cells

A cell of a parsed SPSS column, as seen by `spss_date_to_string`:
a missing value (`pd.isna` true), a numeric value, or a string
(e.g. a value label applied by the parser). -/

inductive Cell where
  | na : Cell
  | num : Int → Cell
  | str : String → Cell
  deriving DecidableEq, Repr

/-- Embedding of `spss_date_to_string` (src/sav_to_excel.py lines 7-15).

For `pd.isna` input it returns `None`.  For a numeric value it computes
`datetime(1582, 10, 14) + timedelta(seconds=v)` and formats the date part:
the resulting calendar day is `epochDay + v.fdiv 86400` (timedelta
normalizes a negative seconds count to a negative day plus a nonnegative
remainder, which is floor division).  If the result lies outside the Python
datetime range the addition raises OverflowError, which the function
catches, returning `None`.  A non-numeric (string) argument makes
`timedelta` raise TypeError, also caught, returning `None`. -/
def spss_date_to_string : Cell → Option String
  | Cell.na => none
  | Cell.str _ => none
  | Cell.num v =>
    let day : Int := epochDay + Int.fdiv v 86400
    if pyMinDay ≤ day ∧ day ≤ pyMaxDay then
      some (formatCivil (civilFromDays day))
    else
      none

/-- The cell left in the column after `df[col].apply(spss_date_to_string)`:
`None` becomes a missing cell, a string result becomes a string cell. -/
def dateCell (c : Cell) : Cell :=
  match spss_date_to_string c with
  | none => Cell.na
  | some s => Cell.str s

/-! ## The parsed dataset and the conversion engine

`pyreadstat.read_sav` yields a DataFrame (an ordered list of named
columns) plus metadata mapping each variable name to its optional label.
A `Column` bundles one DataFrame column with its metadata entry. -/

/-- One parsed column: variable name, optional variable label
(`meta.column_names_to_labels` maps the name to `None` or a string),
and the cell values. -/
structure Column where
  name : String
  label : Option String
  values : List Cell
  deriving DecidableEq, Repr

/-- A column of the output table after renaming: its header and values. -/
structure OutColumn where
  header : String
  values : List Cell
  deriving DecidableEq, Repr

/-- Embedding of line 31: `column_map = {var: label for var, label in
meta.column_names_to_labels.items() if label}` — the rename dictionary,
keeping only entries whose label is present and non-empty (Python `if
label` drops both `None` and the empty string). -/
def columnMap (cols : List Column) : List (String × String) :=
  cols.filterMap (fun c =>
    match c.label with
    | none => none
    | some l => if l = "" then none else some (c.name, l))

/-- Embedding of `column_map.get(k, k)`: dictionary lookup with the key
itself as default.  Variable names are unique in a dataset, so the first
match is the only match. -/
def getMap (m : List (String × String)) (k : String) : String :=
  match m.find? (fun p => p.1 == k) with
  | some p => p.2
  | none => k

/-- Embedding of lines 33-35: `df.rename(columns=column_map)` — every
column whose name is a key of the map gets the mapped header, the others
keep their name.  (The `if column_map:` guard in the source only skips
the rename when the map is empty, in which case renaming with the empty
map is the identity, so the guard is behaviorally redundant.) -/
def renameColumns (cmap : List (String × String)) (cols : List Column) : List OutColumn :=
  cols.map (fun c => { header := getMap cmap c.name, values := c.values })

/-- Embedding of line 38: the fixed allow-list of date-bearing columns. -/
def date_columns : List String := ["Date_Discussed_MTB", "Date_NGS_Perfomed"]

/-- The pandas ValueError message raised when a whole Series is put into
a boolean test. -/
def seriesAmbiguousMsg : String :=
  "The truth value of a Series is ambiguous. Use a.empty, a.bool(), a.item(), a.any() or a.all()."

/-- Embedding of lines 40-43 for one allow-listed name already resolved to
`target = column_map.get(col, col)`: `if new_col_name in df.columns:
df[new_col_name] = df[new_col_name].apply(spss_date_to_string)`.

When exactly one column header equals `target`, `df[target]` is a Series
and the decoder is applied elementwise to that column.  When two or more
headers equal `target` (reachable with unique variable names, since
labels may collide with the target), `df[target]` is a DataFrame and its
`apply` passes each column as a whole Series to `spss_date_to_string`,
whose `if pd.isna(spss_date):` — outside its internal try — raises
ValueError; the exception propagates out of the date loop. -/
def applyDateCol (target : String) (cs : List OutColumn) : Except String (List OutColumn) :=
  if cs.any (fun c => c.header == target) then
    if 2 ≤ cs.countP (fun c => c.header == target) then
      Except.error seriesAmbiguousMsg
    else
      Except.ok (cs.map (fun c =>
        if c.header == target then { c with values := c.values.map dateCell } else c))
  else Except.ok cs

/-- The loop of lines 39-43 over the remaining allow-listed names: a
ValueError raised while processing one name aborts the loop (the for
statement has no handler of its own). -/
def applyDatesLoop (cmap : List (String × String)) :
    List String → List OutColumn → Except String (List OutColumn)
  | [], cs => Except.ok cs
  | col :: rest, cs =>
    match applyDateCol (getMap cmap col) cs with
    | Except.error e => Except.error e
    | Except.ok cs1 => applyDatesLoop cmap rest cs1

/-- Embedding of lines 39-43: the loop over `date_columns`, resolving each
allow-listed name through the rename map before selecting. -/
def applyDates (cmap : List (String × String)) (cs : List OutColumn) :
    Except String (List OutColumn) :=
  applyDatesLoop cmap date_columns cs

/-- The pure core of `convert_sav_to_excel` (lines 28-46): the table that
is written to the Excel file, as a function of the parsed dataset — or
the error of the ValueError that aborts the date loop when a resolved
target matches two or more headers. -/
def convertTable (cols : List Column) : Except String (List OutColumn) :=
  applyDates (columnMap cols) (renameColumns (columnMap cols) cols)

/-- The header the specification assigns to a column: the variableLabel
when present and non-empty, the variableName otherwise.  (Spec-side
definition, for comparison with the code-side `convertTable`.) -/
def effectiveHeader (c : Column) : String :=
  match c.label with
  | some l => if l = "" then c.name else l
  | none => c.name

/-! ## The effectful wrapper of the engine

`convert_sav_to_excel` performs file reads and writes; the outcomes of
the parser and the writer are supplied as explicit values so that its
`try/except` control flow (lines 26-53) can be followed exactly. -/

/-- Outcome of `pyreadstat.read_sav`: a parsed dataset, a missing-file
error (FileNotFoundError), or any other parser error. -/
inductive ParseOutcome where
  | ok : List Column → ParseOutcome
  | fileNotFound : ParseOutcome
  | parseError : String → ParseOutcome
  deriving DecidableEq, Repr

/-- Outcome of `df.to_excel(excel_path)`: success, or an exception with a
message; `truncated` records whether the failed write left a truncated
file at the output path (a property of the writer, outside the control
of the engine). -/
inductive WriteOutcome where
  | ok : WriteOutcome
  | failed : String → Bool → WriteOutcome
  deriving DecidableEq, Repr

/-- What a call to `convert_sav_to_excel` did: whether an exception
escaped to the caller, the table written at the output path (if any),
whether a truncated file is left at the output path, and the message it
printed. -/
structure ConvertResult where
  raised : Bool
  written : Option (List OutColumn)
  truncatedLeft : Bool
  message : String
  deriving DecidableEq, Repr

/-- Embedding of `convert_sav_to_excel` (lines 17-53).  The body is one
`try` whose handlers catch `FileNotFoundError` and then every other
`Exception` — the parser error, the ValueError escaping the date loop,
and the writer error alike — print a message, and fall off the end: no
branch re-raises, and nothing removes whatever the failed writer left
behind.  The date loop runs before `df.to_excel`, so when it raises, the
write is never attempted. -/
def convert_sav_to_excel (parse : ParseOutcome) (write : WriteOutcome)
    (sav_path excel_path : String) : ConvertResult :=
  match parse with
  | ParseOutcome.fileNotFound =>
    { raised := false, written := none, truncatedLeft := false
      message := "Error: The file \x27" ++ sav_path ++ "\x27 was not found." }
  | ParseOutcome.parseError e =>
    { raised := false, written := none, truncatedLeft := false
      message := "An error occurred: " ++ e }
  | ParseOutcome.ok ds =>
    match convertTable ds with
    | Except.error e =>
      { raised := false, written := none, truncatedLeft := false
        message := "An error occurred: " ++ e }
    | Except.ok table =>
      match write with
      | WriteOutcome.ok =>
        { raised := false, written := some table, truncatedLeft := false
          message := "Successfully converted \x27" ++ sav_path ++ "\x27 to \x27" ++ excel_path ++ "\x27" }
      | WriteOutcome.failed e truncated =>
        { raised := false, written := none, truncatedLeft := truncated
          message := "An error occurred: " ++ e }

/-! ## Path helpers used by the batch orchestrator

Embeddings of `os.path.basename`, `os.path.splitext` (the stem part) and
`os.path.join` for POSIX path strings. -/

/-- Embedding of `os.path.basename`: everything after the last slash. -/
def basename (p : String) : String :=
  match (p.splitOn "/").getLast? with
  | some s => s
  | none => p

/-- Index of the last dot of a character list, if any. -/
def lastDotPos (cs : List Char) : Option Nat :=
  match cs.reverse.findIdx? (fun c => c == '.') with
  | some j => some (cs.length - 1 - j)
  | none => none

/-- Embedding of `os.path.splitext(name)[0]` for a bare file name: the
part before the last dot, except that a name whose characters before the
last dot are all dots (such as `.bashrc`) has no extension. -/
def splitextStem (name : String) : String :=
  let cs := name.toList
  match lastDotPos cs with
  | none => name
  | some i =>
    if (cs.take i).any (fun c => c ≠ '.') then String.mk (cs.take i) else name

/-- Embedding of `os.path.join(d, f)` for a relative `f`. -/
def joinPath (d f : String) : String :=
  if d = "" then f else if d.endsWith "/" then d ++ f else d ++ "/" ++ f

/-! ## The batch orchestrator

Embedding of `batch_convert_sav_to_excel` (lines 55-115).  The result
dictionary becomes `BatchResults`; the per-item `try/except` becomes a
branch on whether the engine call raised (it never does, see
`convert_never_raised` below, so the `failed` list can never grow). -/

/-- One entry of the successful list of `results` (lines 89-93). -/
structure SuccessEntry where
  input : String
  output : String
  filename : String
  deriving DecidableEq, Repr

/-- One entry of the failed list of `results` (lines 98-101). -/
structure FailEntry where
  input : String
  error : String
  deriving DecidableEq, Repr

/-- The `results` dictionary (lines 66-70). -/
structure BatchResults where
  successful : List SuccessEntry
  failed : List FailEntry
  total : Nat
  deriving DecidableEq, Repr

/-- One iteration of the loop at lines 78-102: derive the output name,
call the engine, and append a success entry — or a failure entry if the
engine call raised. -/
def batchStep (parse : String → ParseOutcome) (write : String → WriteOutcome)
    (output_dir : String) (r : BatchResults) (sav_file : String) : BatchResults :=
  let excel_filename := splitextStem (basename sav_file) ++ ".xlsx"
  let excel_path := joinPath output_dir excel_filename
  let conv := convert_sav_to_excel (parse sav_file) (write excel_path) sav_file excel_path
  if conv.raised then
    { r with failed := r.failed ++ [{ input := sav_file, error := conv.message }] }
  else
    { r with successful := r.successful ++
        [{ input := sav_file, output := excel_path, filename := excel_filename }] }

/-- The loop of lines 78-102 over the remaining files. -/
def batchLoop (parse : String → ParseOutcome) (write : String → WriteOutcome)
    (output_dir : String) : List String → BatchResults → BatchResults
  | [], r => r
  | f :: fs, r => batchLoop parse write output_dir fs (batchStep parse write output_dir r f)

/-- Embedding of the body of `batch_convert_sav_to_excel` after the
output directory is in place: initialize `results` with the total and
run the loop. -/
def batch_convert_sav_to_excel (parse : String → ParseOutcome)
    (write : String → WriteOutcome) (sav_files : List String)
    (output_dir : String) : BatchResults :=
  batchLoop parse write output_dir sav_files
    { successful := [], failed := [], total := sav_files.length }

/-- The directory environment of a batch run: whether `output_dir`
already exists, and whether `os.makedirs` would succeed. -/
structure DirFs where
  dirExists : Bool
  mkdirOk : Bool
  deriving DecidableEq, Repr

/-- What a full call of `batch_convert_sav_to_excel` did: the returned
dictionary (`none` when the call raised), the escaped exception message
if any, and the list of inputs whose processing was attempted. -/
structure BatchOutcome where
  report : Option BatchResults
  raisedMsg : Option String
  processed : List String
  deriving DecidableEq, Repr

/-- Embedding of `batch_convert_sav_to_excel` including lines 72-74:
`if not os.path.exists(output_dir): os.makedirs(output_dir)` runs before
the loop and outside any handler, so a `makedirs` failure escapes before
any item is attempted; in every other case the loop runs to completion
and the function returns normally. -/
def batch_convert_run (fs : DirFs) (parse : String → ParseOutcome)
    (write : String → WriteOutcome) (sav_files : List String)
    (output_dir : String) : BatchOutcome :=
  if fs.dirExists = false ∧ fs.mkdirOk = false then
    { report := none, raisedMsg := some "makedirs failed", processed := [] }
  else
    { report := some (batch_convert_sav_to_excel parse write sav_files output_dir)
      raisedMsg := none, processed := sav_files }

/-! ## The command-line path resolution

Embedding of the `__main__` block, lines 126-143: expand directory
arguments by recursive walk, filter walked files by a case-insensitive
`.sav` suffix, append non-directory arguments unconditionally, then
deduplicate and sort; exit with status 1 when nothing remains. -/

/-- Lexicographic code-point comparison of character lists, the order
Python `sorted` uses on strings. -/
def charListLe : List Char → List Char → Bool
  | [], _ => true
  | _ :: _, [] => false
  | a :: as, b :: bs =>
    if a.toNat < b.toNat then true
    else if b.toNat < a.toNat then false
    else charListLe as bs

/-- Lexicographic code-point comparison of strings. -/
def stringLe (a b : String) : Bool :=
  charListLe a.toList b.toList

/-- Embedding of Python `str.lower` restricted to the ASCII range
relevant to the `.sav` extension test. -/
def strLower (s : String) : String :=
  String.mk (s.toList.map Char.toLower)

/-- Does the character list `t` start with the character list `u`? -/
def startsWithChars : List Char → List Char → Bool
  | _, [] => true
  | [], _ :: _ => false
  | a :: as, b :: bs => (a == b) && startsWithChars as bs

/-- Embedding of Python `str.endswith`. -/
def strEndsWith (s t : String) : Bool :=
  startsWithChars s.toList.reverse t.toList.reverse

/-- The directory structure seen by the CLI: each directory path together
with the files `os.walk` finds under it (full joined paths, in walk
order).  Any path not listed is not a directory. -/
structure CliFs where
  dirs : List (String × List String)
  deriving Repr

/-- Embedding of `os.path.isdir(p)`. -/
def CliFs.isDir (fs : CliFs) (p : String) : Bool :=
  fs.dirs.any (fun d => d.1 == p)

/-- The files of the recursive walk of `p` (empty when `p` is not a
directory). -/
def CliFs.walk (fs : CliFs) (p : String) : List String :=
  match fs.dirs.find? (fun d => d.1 == p) with
  | some d => d.2
  | none => []

/-- Embedding of the loop at lines 128-136: for a directory argument,
every walked file whose lower-cased name ends in `.sav` (the source tests
the bare file name and appends `os.path.join(root, file)`; testing the
joined path is equivalent because the name is a suffix of the joined
path); a non-directory argument is appended as is. -/
def collectSavFiles (fs : CliFs) : List String → List String
  | [] => []
  | path :: rest =>
    (if fs.isDir path then
      (fs.walk path).filter (fun file => strEndsWith (strLower file) ".sav")
    else [path]) ++ collectSavFiles fs rest

/-- Embedding of line 139: `sav_files = sorted(list(set(sav_files)))` —
duplicates removed, then sorted in lexicographic string order. -/
def resolveSavFiles (fs : CliFs) (args : List String) : List String :=
  List.insertionSort (fun a b => stringLe a b = true) (collectSavFiles fs args).dedup

/-- What the `__main__` block does with the resolved list (lines
141-155): exit with status 1 when it is empty, otherwise hand the files
on for conversion. -/
inductive CliOutcome where
  | noFiles : String → Nat → CliOutcome
  | run : List String → CliOutcome
  deriving DecidableEq, Repr

/-- Embedding of lines 141-143 and the decision to proceed. -/
def cliMain (fs : CliFs) (args : List String) : CliOutcome :=
  let files := resolveSavFiles fs args
  if files.isEmpty then CliOutcome.noFiles "No .sav files found!" 1
  else CliOutcome.run files

/-! ## Helper lemmas -/

/-- No branch of the engine re-raises: the two handlers catch
`FileNotFoundError` and every other `Exception` and fall off the end. -/
theorem convert_never_raised (parse : ParseOutcome) (write : WriteOutcome)
    (s e : String) : (convert_sav_to_excel parse write s e).raised = false := by
  cases parse with
  | fileNotFound => rfl
  | parseError e2 => rfl
  | ok ds =>
    cases hct : convertTable ds with
    | error e2 => simp [convert_sav_to_excel, hct]
    | ok table => cases write <;> simp [convert_sav_to_excel, hct]

/-- Every key of the rename dictionary is a variable name of the dataset. -/
theorem columnMap_mem_name {cols : List Column} {p : String × String}
    (hp : p ∈ columnMap cols) : p.1 ∈ cols.map Column.name := by
  rcases List.mem_filterMap.mp hp with ⟨c, hc, hfc⟩
  have hname : p.1 = c.name := by
    cases hl : c.label with
    | none => rw [hl] at hfc; exact absurd hfc (by simp)
    | some l =>
      rw [hl] at hfc
      change (if l = "" then none else some (c.name, l)) = some p at hfc
      by_cases he : l = ""
      · rw [if_pos he] at hfc; exact absurd hfc (by simp)
      · rw [if_neg he] at hfc
        injection hfc with h
        rw [← h]
  exact List.mem_map.mpr ⟨c, hc, hname.symm⟩

/-- A lookup whose key matches no entry returns the key itself. -/
theorem getMap_key_not_mem (m : List (String × String)) (k : String)
    (h : ∀ p ∈ m, p.1 ≠ k) : getMap m k = k := by
  have hf : m.find? (fun p => p.1 == k) = none :=
    List.find?_eq_none.mpr (fun x hx => by simpa using h x hx)
  unfold getMap
  rw [hf]

/-- With unique variable names, resolving a name of the dataset through
the rename dictionary yields exactly the effective header of that
column: its label when present and non-empty, its name otherwise. -/
theorem getMap_columnMap (cols : List Column)
    (hnd : (cols.map Column.name).Nodup) {c : Column} (hc : c ∈ cols) :
    getMap (columnMap cols) c.name = effectiveHeader c := by
  induction cols with
  | nil => cases hc
  | cons a as ih =>
    rw [List.map_cons, List.nodup_cons] at hnd
    obtain ⟨hna, hnd⟩ := hnd
    cases hl : a.label with
    | none =>
      have hcm : columnMap (a :: as) = columnMap as := by
        simp [columnMap, List.filterMap_cons, hl]
      rcases List.mem_cons.mp hc with hca | hca
      · subst hca
        have hnot : ∀ p ∈ columnMap as, p.1 ≠ c.name := by
          intro p hp h
          exact hna (h ▸ columnMap_mem_name hp)
        rw [hcm, getMap_key_not_mem _ _ hnot]
        simp [effectiveHeader, hl]
      · rw [hcm]
        exact ih hnd hca
    | some l =>
      by_cases he : l = ""
      · have hcm : columnMap (a :: as) = columnMap as := by
          simp [columnMap, List.filterMap_cons, hl, he]
        rcases List.mem_cons.mp hc with hca | hca
        · subst hca
          have hnot : ∀ p ∈ columnMap as, p.1 ≠ c.name := by
            intro p hp h
            exact hna (h ▸ columnMap_mem_name hp)
          rw [hcm, getMap_key_not_mem _ _ hnot]
          simp [effectiveHeader, hl, he]
        · rw [hcm]
          exact ih hnd hca
      · have hcm : columnMap (a :: as) = (a.name, l) :: columnMap as := by
          simp [columnMap, List.filterMap_cons, hl, he]
        rcases List.mem_cons.mp hc with hca | hca
        · subst hca
          rw [hcm]
          unfold getMap
          rw [List.find?_cons_of_pos _ (by simp)]
          simp [effectiveHeader, hl, he]
        · have hne : ((a.name, l).1 == c.name) = false := by
            have : a.name ≠ c.name := by
              intro h
              exact hna (h ▸ List.mem_map.mpr ⟨c, hca, rfl⟩)
            simpa using this
          rw [hcm]
          unfold getMap
          rw [List.find?_cons_of_neg _ (by simp [hne])]
          exact ih hnd hca

/-- A successful date-decoding pass changes no header (it only maps
values of the matching column). -/
theorem applyDateCol_ok_map_header (t : String) (cs cs2 : List OutColumn)
    (hok : applyDateCol t cs = Except.ok cs2) :
    cs2.map OutColumn.header = cs.map OutColumn.header := by
  unfold applyDateCol at hok
  split at hok
  · split at hok
    · cases hok
    · injection hok with h
      rw [← h, List.map_map]
      apply List.map_congr_left
      intro c _
      by_cases hh : c.header == t
      · simp [Function.comp, hh]
      · simp [Function.comp, hh]
  · injection hok with h
    rw [← h]

/-- A column whose header differs from the resolved target passes a
successful date-decoding pass unchanged. -/
theorem applyDateCol_ok_getElem?_of_ne (t : String) (cs cs2 : List OutColumn)
    (i : Nat) (c : OutColumn) (hok : applyDateCol t cs = Except.ok cs2)
    (hc : cs[i]? = some c) (h : c.header ≠ t) : cs2[i]? = some c := by
  unfold applyDateCol at hok
  split at hok
  · split at hok
    · cases hok
    · injection hok with heq
      rw [← heq, List.getElem?_map, hc]
      simp [h]
  · injection hok with heq
    rw [← heq]
    exact hc

/-- When the resolved target matches two or more headers, the selection
raises the pandas ambiguous-Series ValueError. -/
theorem applyDateCol_error_of_two (t : String) (cs : List OutColumn)
    (h2 : 2 ≤ cs.countP (fun c => c.header == t)) :
    applyDateCol t cs = Except.error seriesAmbiguousMsg := by
  have hany : cs.any (fun c => c.header == t) = true :=
    List.any_eq_true.mpr (List.countP_pos_iff.mp (by omega))
  unfold applyDateCol
  rw [if_pos hany, if_pos h2]

/-- A successful run of the whole date loop changes no header. -/
theorem applyDatesLoop_ok_map_header (cmap : List (String × String)) :
    ∀ (ts : List String) (cs cs2 : List OutColumn),
    applyDatesLoop cmap ts cs = Except.ok cs2 →
    cs2.map OutColumn.header = cs.map OutColumn.header := by
  intro ts
  induction ts with
  | nil =>
    intro cs cs2 hok
    simp [applyDatesLoop] at hok
    rw [← hok]
  | cons t ts ih =>
    intro cs cs2 hok
    simp only [applyDatesLoop] at hok
    cases h1 : applyDateCol (getMap cmap t) cs with
    | error e => simp [h1] at hok
    | ok cs1 =>
      simp only [h1] at hok
      exact (ih cs1 cs2 hok).trans (applyDateCol_ok_map_header _ _ _ h1)

/-- A column whose header differs from every resolved target passes a
successful run of the whole date loop unchanged. -/
theorem applyDatesLoop_ok_getElem?_of_ne (cmap : List (String × String)) :
    ∀ (ts : List String) (cs cs2 : List OutColumn) (i : Nat) (c : OutColumn),
    applyDatesLoop cmap ts cs = Except.ok cs2 → cs[i]? = some c →
    (∀ t ∈ ts, c.header ≠ getMap cmap t) → cs2[i]? = some c := by
  intro ts
  induction ts with
  | nil =>
    intro cs cs2 i c hok hc _
    simp [applyDatesLoop] at hok
    rw [← hok]
    exact hc
  | cons t ts ih =>
    intro cs cs2 i c hok hc hne
    simp only [applyDatesLoop] at hok
    cases h1 : applyDateCol (getMap cmap t) cs with
    | error e => simp [h1] at hok
    | ok cs1 =>
      simp only [h1] at hok
      have hc1 : cs1[i]? = some c :=
        applyDateCol_ok_getElem?_of_ne _ _ _ _ _ h1 hc (hne t (by simp))
      exact ih cs1 cs2 i c hok hc1 (fun u hu => hne u (by simp [hu]))

/-! ## Claim C1 — the date-normalization rule -/

/-- C1: for a numeric cell whose decoded day lies in the representable
datetime range, `spss_date_to_string` returns the YYYY-MM-DD formatting of
the proleptic Gregorian date `v.fdiv 86400` days after 1582-10-14; in
particular 0 maps to 1582-10-14 and 86400 maps to 1582-10-15; a missing
cell maps to `none`; a non-numeric cell maps to `none`; and a value whose
decoded day falls outside the representable range maps to `none` rather
than failing. -/
theorem spss_date_normalization_conforms :
    (∀ v : Int, pyMinDay ≤ epochDay + Int.fdiv v 86400 →
      epochDay + Int.fdiv v 86400 ≤ pyMaxDay →
      spss_date_to_string (Cell.num v) =
        some (formatCivil (civilFromDays (daysFromCivil 1582 10 14 + Int.fdiv v 86400))))
    ∧ spss_date_to_string (Cell.num 0) = some "1582-10-14"
    ∧ spss_date_to_string (Cell.num 86400) = some "1582-10-15"
    ∧ spss_date_to_string Cell.na = none
    ∧ (∀ s : String, spss_date_to_string (Cell.str s) = none)
    ∧ (∀ v : Int,
        (epochDay + Int.fdiv v 86400 < pyMinDay ∨ pyMaxDay < epochDay + Int.fdiv v 86400) →
        spss_date_to_string (Cell.num v) = none) := by
  refine ⟨?_, by decide, by decide, rfl, fun s => rfl, ?_⟩
  · intro v h1 h2
    show (if pyMinDay ≤ epochDay + Int.fdiv v 86400 ∧ epochDay + Int.fdiv v 86400 ≤ pyMaxDay
        then some (formatCivil (civilFromDays (epochDay + Int.fdiv v 86400))) else none)
      = some (formatCivil (civilFromDays (daysFromCivil 1582 10 14 + Int.fdiv v 86400)))
    rw [if_pos ⟨h1, h2⟩]
    rfl
  · intro v h
    show (if pyMinDay ≤ epochDay + Int.fdiv v 86400 ∧ epochDay + Int.fdiv v 86400 ≤ pyMaxDay
        then some (formatCivil (civilFromDays (epochDay + Int.fdiv v 86400))) else none)
      = none
    rcases h with h | h
    · rw [if_neg (fun hc => absurd hc.1 (not_le.mpr h))]
    · rw [if_neg (fun hc => absurd hc.2 (not_le.mpr h))]

/-- Witness for C1: the general conjuncts instantiated at value 0 (in
range) and at a huge value (out of range). -/
theorem spss_date_normalization_conforms_witness :
    spss_date_to_string (Cell.num 0) =
      some (formatCivil (civilFromDays (daysFromCivil 1582 10 14 + Int.fdiv 0 86400)))
    ∧ spss_date_to_string (Cell.num (10 ^ 15)) = none :=
  ⟨spss_date_normalization_conforms.1 0 (by decide) (by decide),
   spss_date_normalization_conforms.2.2.2.2.2 (10 ^ 15) (Or.inr (by decide))⟩

/-! ## Claim C2 — headers come from labels, order preserved -/

/-- C2: with unique variable names, whenever the conversion produces an
output table, every output header is the variableLabel when present and
non-empty and the variableName otherwise, and the output columns are the
input columns in order (same count, i-th output header determined by the
i-th input column). -/
theorem output_headers_follow_labels (cols : List Column) (table : List OutColumn)
    (hnd : (cols.map Column.name).Nodup)
    (hok : convertTable cols = Except.ok table) :
    table.map OutColumn.header = cols.map effectiveHeader
    ∧ table.length = cols.length := by
  have hmap : table.map OutColumn.header
      = (renameColumns (columnMap cols) cols).map OutColumn.header :=
    applyDatesLoop_ok_map_header (columnMap cols) date_columns
      (renameColumns (columnMap cols) cols) table hok
  have hrn : (renameColumns (columnMap cols) cols).map OutColumn.header
      = cols.map effectiveHeader := by
    unfold renameColumns
    rw [List.map_map]
    apply List.map_congr_left
    intro c hc
    show getMap (columnMap cols) c.name = effectiveHeader c
    exact getMap_columnMap cols hnd hc
  refine ⟨hmap.trans hrn, ?_⟩
  have hlen := congrArg List.length (hmap.trans hrn)
  simpa using hlen

/-- Witness for C2: a three-column dataset with a labeled column, an
unlabeled column, and an empty-label column. -/
theorem output_headers_follow_labels_witness :
    ([{ header := "Age of patient", values := [Cell.num 1] },
      { header := "B", values := [Cell.na] },
      { header := "C", values := [] }] : List OutColumn).map OutColumn.header
      = [{ name := "A", label := some "Age of patient", values := [Cell.num 1] },
         { name := "B", label := none, values := [Cell.na] },
         { name := "C", label := some "", values := [] }].map effectiveHeader
    ∧ ([{ header := "Age of patient", values := [Cell.num 1] },
        { header := "B", values := [Cell.na] },
        { header := "C", values := [] }] : List OutColumn).length
      = ([{ name := "A", label := some "Age of patient", values := [Cell.num 1] },
          { name := "B", label := none, values := [Cell.na] },
          { name := "C", label := some "", values := [] }] : List Column).length :=
  output_headers_follow_labels
    [{ name := "A", label := some "Age of patient", values := [Cell.num 1] },
     { name := "B", label := none, values := [Cell.na] },
     { name := "C", label := some "", values := [] }]
    [{ header := "Age of patient", values := [Cell.num 1] },
     { header := "B", values := [Cell.na] },
     { header := "C", values := [] }] (by decide) rfl

/-! ## Claim C3 — the date allow-list

The source resolves each allow-listed name through the rename dictionary
and then selects the target by header.  A column that is not on the
allow-list but whose label equals an allow-listed name is therefore
involved too: when it is the only match it is date-normalized in place
of the allow-listed column, and when the resolved target matches two or
more headers the selection raises the pandas ambiguous-Series ValueError
and the whole conversion aborts with no output. -/

/-- C3 counterexample: a single column named X — not on the allow-list —
labeled Date_Discussed_MTB is date-normalized: its numeric value 0 is
rewritten to the string 1582-10-14 instead of passing through. -/
theorem date_allowlist_counterexample :
    "X" ∉ date_columns
    ∧ convertTable
        [{ name := "X", label := some "Date_Discussed_MTB", values := [Cell.num 0] }]
      = Except.ok [{ header := "Date_Discussed_MTB", values := [Cell.str "1582-10-14"] }]
    ∧ [Cell.str "1582-10-14"] ≠ [Cell.num 0] :=
  ⟨by decide, rfl, by decide⟩

/-- C3 amended: date normalization targets the headers obtained by
resolving the two allow-listed names through the rename dictionary.
Whenever the conversion produces an output table, any column whose
post-rename header differs from both resolved targets is passed through
with cell values identical to the input; and when a resolved target
matches two or more post-rename headers, the date loop raises and the
conversion produces no output at all.  (A column whose header is the
single match of a resolved target is normalized even when it is not on
the allow-list, as the counterexample shows.) -/
theorem date_allowlist_resolved_targets (cols : List Column) :
    (∀ (i : Nat) (c : Column) (table : List OutColumn),
      convertTable cols = Except.ok table → cols[i]? = some c →
      getMap (columnMap cols) c.name ∉ date_columns.map (getMap (columnMap cols)) →
      table[i]? = some { header := getMap (columnMap cols) c.name, values := c.values })
    ∧ (∀ t, t ∈ date_columns.map (getMap (columnMap cols)) →
        2 ≤ (renameColumns (columnMap cols) cols).countP (fun oc => oc.header == t) →
        ∃ e, convertTable cols = Except.error e) := by
  constructor
  · intro i c table hok hc hnotin
    have hrn : (renameColumns (columnMap cols) cols)[i]? =
        some { header := getMap (columnMap cols) c.name, values := c.values } := by
      unfold renameColumns
      rw [List.getElem?_map, hc]
      rfl
    refine applyDatesLoop_ok_getElem?_of_ne (columnMap cols) date_columns
      (renameColumns (columnMap cols) cols) table i _ hok hrn ?_
    intro t ht heq
    have heq2 : getMap (columnMap cols) c.name = getMap (columnMap cols) t := heq
    apply hnotin
    rw [heq2]
    exact List.mem_map.mpr ⟨t, ht, rfl⟩
  · intro t ht h2
    have hts : date_columns.map (getMap (columnMap cols))
        = [getMap (columnMap cols) "Date_Discussed_MTB",
           getMap (columnMap cols) "Date_NGS_Perfomed"] := rfl
    rw [hts] at ht
    rcases List.mem_cons.mp ht with ht1 | ht'
    · subst ht1
      refine ⟨seriesAmbiguousMsg, ?_⟩
      show applyDatesLoop (columnMap cols) date_columns
          (renameColumns (columnMap cols) cols) = Except.error seriesAmbiguousMsg
      simp only [date_columns, applyDatesLoop]
      rw [applyDateCol_error_of_two _ _ h2]
    · rcases List.mem_cons.mp ht' with ht2 | hx
      · subst ht2
        cases h1 : applyDateCol (getMap (columnMap cols) "Date_Discussed_MTB")
            (renameColumns (columnMap cols) cols) with
        | error e =>
          refine ⟨e, ?_⟩
          show applyDatesLoop (columnMap cols) date_columns
              (renameColumns (columnMap cols) cols) = Except.error e
          simp only [date_columns, applyDatesLoop]
          rw [h1]
        | ok cs1 =>
          have hm := applyDateCol_ok_map_header _ _ _ h1
          have hcnt : cs1.countP (fun oc => oc.header ==
                getMap (columnMap cols) "Date_NGS_Perfomed")
              = (renameColumns (columnMap cols) cols).countP (fun oc => oc.header ==
                getMap (columnMap cols) "Date_NGS_Perfomed") := by
            have e1 := congrArg (List.countP (fun h => h ==
              getMap (columnMap cols) "Date_NGS_Perfomed")) hm
            rw [List.countP_map, List.countP_map] at e1
            exact e1
          have h2' : 2 ≤ cs1.countP (fun oc => oc.header ==
              getMap (columnMap cols) "Date_NGS_Perfomed") := by omega
          refine ⟨seriesAmbiguousMsg, ?_⟩
          show applyDatesLoop (columnMap cols) date_columns
              (renameColumns (columnMap cols) cols) = Except.error seriesAmbiguousMsg
          simp only [date_columns, applyDatesLoop]
          simp only [h1]
          rw [applyDateCol_error_of_two _ _ h2']
      · cases hx

/-- Witness for C3 amended: a column named Y, off the allow-list with no
colliding header, passes through with its numeric value intact; and a
dataset where a non-allow-listed column labeled Date_Discussed_MTB
collides with the actual Date_Discussed_MTB column makes the conversion
abort with an error. -/
theorem date_allowlist_resolved_targets_witness :
    ([{ header := "Y", values := [Cell.num 5] }] : List OutColumn)[0]? =
      some { header :=
               getMap (columnMap [{ name := "Y", label := none, values := [Cell.num 5] }]) "Y"
             values := [Cell.num 5] }
    ∧ ∃ e, convertTable
        [{ name := "Date_Discussed_MTB", label := none, values := [Cell.num 0] },
         { name := "X", label := some "Date_Discussed_MTB", values := [Cell.num 1] }]
        = Except.error e :=
  ⟨(date_allowlist_resolved_targets
      [{ name := "Y", label := none, values := [Cell.num 5] }]).1 0
      { name := "Y", label := none, values := [Cell.num 5] }
      [{ header := "Y", values := [Cell.num 5] }] rfl rfl (by decide),
   (date_allowlist_resolved_targets
      [{ name := "Date_Discussed_MTB", label := none, values := [Cell.num 0] },
       { name := "X", label := some "Date_Discussed_MTB", values := [Cell.num 1] }]).2
      "Date_Discussed_MTB" (by decide) (by decide)⟩

/-! ## Claim C4 — the error contract of the single-file conversion -/

/-- C4 counterexample: on a missing input file the conversion returns
normally with a printed message instead of raising an IOError to its
caller. -/
theorem convert_missing_input_returns_normally :
    (convert_sav_to_excel ParseOutcome.fileNotFound WriteOutcome.ok
        "missing.sav" "Converted/missing.xlsx").raised = false
    ∧ (convert_sav_to_excel ParseOutcome.fileNotFound WriteOutcome.ok
        "missing.sav" "Converted/missing.xlsx").message
      = "Error: The file \x27missing.sav\x27 was not found." :=
  ⟨rfl, rfl⟩

/-- C4 amended: the engine distinguishes the failure conditions —
missing input, parser error, the ValueError escaping the date loop, and
failed write — but reports each one by printing a message and returning
normally; no call raises to its caller, and no failing call records a
written output table. -/
theorem convert_error_reporting (parse : ParseOutcome) (write : WriteOutcome)
    (sav_path excel_path : String) :
    (convert_sav_to_excel parse write sav_path excel_path).raised = false
    ∧ (parse = ParseOutcome.fileNotFound →
        (convert_sav_to_excel parse write sav_path excel_path).message
            = "Error: The file \x27" ++ sav_path ++ "\x27 was not found."
          ∧ (convert_sav_to_excel parse write sav_path excel_path).written = none)
    ∧ (∀ e, parse = ParseOutcome.parseError e →
        (convert_sav_to_excel parse write sav_path excel_path).message
            = "An error occurred: " ++ e
          ∧ (convert_sav_to_excel parse write sav_path excel_path).written = none)
    ∧ (∀ ds e2, parse = ParseOutcome.ok ds → convertTable ds = Except.error e2 →
        (convert_sav_to_excel parse write sav_path excel_path).message
            = "An error occurred: " ++ e2
          ∧ (convert_sav_to_excel parse write sav_path excel_path).written = none)
    ∧ (∀ ds table e t, parse = ParseOutcome.ok ds → convertTable ds = Except.ok table →
        write = WriteOutcome.failed e t →
        (convert_sav_to_excel parse write sav_path excel_path).message
            = "An error occurred: " ++ e
          ∧ (convert_sav_to_excel parse write sav_path excel_path).written = none) := by
  refine ⟨convert_never_raised parse write sav_path excel_path, ?_, ?_, ?_, ?_⟩
  · intro hp
    subst hp
    exact ⟨rfl, rfl⟩
  · intro e hp
    subst hp
    exact ⟨rfl, rfl⟩
  · intro ds e2 hp hct
    subst hp
    constructor
    · simp [convert_sav_to_excel, hct]
    · simp [convert_sav_to_excel, hct]
  · intro ds table e t hp hct hw
    subst hp
    subst hw
    constructor
    · simp [convert_sav_to_excel, hct]
    · simp [convert_sav_to_excel, hct]

/-- Witness for C4 amended: a parser error is reported in the printed
message and nothing is recorded as written. -/
theorem convert_error_reporting_witness :
    ((convert_sav_to_excel (ParseOutcome.parseError "bad header") WriteOutcome.ok
        "a.sav" "Converted/a.xlsx").message = "An error occurred: bad header"
      ∧ (convert_sav_to_excel (ParseOutcome.parseError "bad header") WriteOutcome.ok
          "a.sav" "Converted/a.xlsx").written = none)
    ∧ ((convert_sav_to_excel
          (ParseOutcome.ok
            [{ name := "Date_Discussed_MTB", label := none, values := [Cell.num 0] },
             { name := "X", label := some "Date_Discussed_MTB", values := [Cell.num 1] }])
          WriteOutcome.ok "a.sav" "Converted/a.xlsx").message
        = "An error occurred: " ++ seriesAmbiguousMsg
      ∧ (convert_sav_to_excel
          (ParseOutcome.ok
            [{ name := "Date_Discussed_MTB", label := none, values := [Cell.num 0] },
             { name := "X", label := some "Date_Discussed_MTB", values := [Cell.num 1] }])
          WriteOutcome.ok "a.sav" "Converted/a.xlsx").written = none) :=
  ⟨(convert_error_reporting (ParseOutcome.parseError "bad header") WriteOutcome.ok
      "a.sav" "Converted/a.xlsx").2.2.1 "bad header" rfl,
   (convert_error_reporting
      (ParseOutcome.ok
        [{ name := "Date_Discussed_MTB", label := none, values := [Cell.num 0] },
         { name := "X", label := some "Date_Discussed_MTB", values := [Cell.num 1] }])
      WriteOutcome.ok "a.sav" "Converted/a.xlsx").2.2.2.1
      [{ name := "Date_Discussed_MTB", label := none, values := [Cell.num 0] },
       { name := "X", label := some "Date_Discussed_MTB", values := [Cell.num 1] }]
      seriesAmbiguousMsg rfl rfl⟩

/-! ## Claim C5 — no partial output on failure -/

/-- C5 counterexample: when the writer fails and leaves a truncated file
at the output path, the engine leaves it there — the output location is
not restored on failure. -/
theorem truncated_output_left_on_failure :
    (convert_sav_to_excel
        (ParseOutcome.ok [{ name := "A", label := none, values := [Cell.num 1] }])
        (WriteOutcome.failed "disk full" true) "a.sav" "Converted/a.xlsx").truncatedLeft
      = true :=
  rfl

/-- C5 amended: the engine writes directly to the final output path with
no temporary file, rename, or deletion: after a failed write (reached
when the table was built) a truncated file remains exactly when the
failed writer left one, while a failure before the write step — missing
input, parser error, or the date loop raising — leaves the output
location untouched. -/
theorem no_cleanup_on_failure :
    (∀ ds table e t s x, convertTable ds = Except.ok table →
      (convert_sav_to_excel (ParseOutcome.ok ds)
        (WriteOutcome.failed e t) s x).truncatedLeft = t)
    ∧ (∀ ds e2 w s x, convertTable ds = Except.error e2 →
        (convert_sav_to_excel (ParseOutcome.ok ds) w s x).truncatedLeft = false
        ∧ (convert_sav_to_excel (ParseOutcome.ok ds) w s x).written = none)
    ∧ (∀ w s x,
        (convert_sav_to_excel ParseOutcome.fileNotFound w s x).truncatedLeft = false
        ∧ (convert_sav_to_excel ParseOutcome.fileNotFound w s x).written = none)
    ∧ (∀ e w s x,
        (convert_sav_to_excel (ParseOutcome.parseError e) w s x).truncatedLeft = false
        ∧ (convert_sav_to_excel (ParseOutcome.parseError e) w s x).written = none) := by
  refine ⟨?_, ?_, fun _ _ _ => ⟨rfl, rfl⟩, fun _ _ _ _ => ⟨rfl, rfl⟩⟩
  · intro ds table e t s x hct
    simp [convert_sav_to_excel, hct]
  · intro ds e2 w s x hct
    constructor
    · simp [convert_sav_to_excel, hct]
    · simp [convert_sav_to_excel, hct]

/-- Witness for C5 amended: the built-table and aborted-table branches at
concrete datasets. -/
theorem no_cleanup_on_failure_witness :
    (convert_sav_to_excel
        (ParseOutcome.ok [{ name := "B", label := none, values := [Cell.num 2] }])
        (WriteOutcome.failed "disk full" true) "b.sav" "Converted/b.xlsx").truncatedLeft
      = true
    ∧ (convert_sav_to_excel
        (ParseOutcome.ok
          [{ name := "Date_Discussed_MTB", label := none, values := [Cell.num 0] },
           { name := "X", label := some "Date_Discussed_MTB", values := [Cell.num 1] }])
        (WriteOutcome.failed "disk full" true) "b.sav" "Converted/b.xlsx").truncatedLeft
      = false :=
  ⟨no_cleanup_on_failure.1 [{ name := "B", label := none, values := [Cell.num 2] }]
      [{ header := "B", values := [Cell.num 2] }] "disk full" true
      "b.sav" "Converted/b.xlsx" rfl,
   (no_cleanup_on_failure.2.1
      [{ name := "Date_Discussed_MTB", label := none, values := [Cell.num 0] },
       { name := "X", label := some "Date_Discussed_MTB", values := [Cell.num 1] }]
      seriesAmbiguousMsg (WriteOutcome.failed "disk full" true)
      "b.sav" "Converted/b.xlsx" rfl).1⟩

/-! ## Claim C6 — the batch report sum invariant -/

/-- The success entry the loop builds for one input file. -/
def successEntry (output_dir f : String) : SuccessEntry :=
  { input := f
    output := joinPath output_dir (splitextStem (basename f) ++ ".xlsx")
    filename := splitextStem (basename f) ++ ".xlsx" }

theorem successEntry_input (d f : String) : (successEntry d f).input = f := rfl

/-- Because the engine never raises, each loop iteration appends exactly
one success entry and never touches the failed list. -/
theorem batchStep_eq (parse : String → ParseOutcome) (write : String → WriteOutcome)
    (output_dir : String) (r : BatchResults) (f : String) :
    batchStep parse write output_dir r f
      = { r with successful := r.successful ++ [successEntry output_dir f] } := by
  simp [batchStep, successEntry, convert_never_raised]

/-- Shape of the loop result: the success inputs are the initial
accumulator followed by all processed files, the failed list and the
total never change. -/
theorem batchLoop_spec (parse : String → ParseOutcome) (write : String → WriteOutcome)
    (output_dir : String) (fs : List String) (r : BatchResults) :
    ((batchLoop parse write output_dir fs r).successful).map SuccessEntry.input
        = (r.successful).map SuccessEntry.input ++ fs
    ∧ (batchLoop parse write output_dir fs r).failed = r.failed
    ∧ (batchLoop parse write output_dir fs r).total = r.total
    ∧ (batchLoop parse write output_dir fs r).successful.length
        = r.successful.length + fs.length := by
  induction fs generalizing r with
  | nil => simp [batchLoop]
  | cons f fs ih =>
    have hstep : batchLoop parse write output_dir (f :: fs) r
        = batchLoop parse write output_dir fs
            { r with successful := r.successful ++ [successEntry output_dir f] } := by
      show batchLoop parse write output_dir fs (batchStep parse write output_dir r f) = _
      rw [batchStep_eq]
    obtain ⟨h1, h2, h3, h4⟩ :=
      ih { r with successful := r.successful ++ [successEntry output_dir f] }
    rw [hstep]
    refine ⟨?_, h2, h3, ?_⟩
    · rw [h1]
      simp [successEntry_input]
    · rw [h4]
      simp
      omega

/-- C6: every batch run satisfies the report sum invariant — success
count plus failure count equals the total — and every input path lands in
exactly one of the two lists, counted with multiplicity over the inputs. -/
theorem batch_report_sum_invariant (parse : String → ParseOutcome)
    (write : String → WriteOutcome) (sav_files : List String) (output_dir : String) :
    (batch_convert_sav_to_excel parse write sav_files output_dir).successful.length
        + (batch_convert_sav_to_excel parse write sav_files output_dir).failed.length
      = (batch_convert_sav_to_excel parse write sav_files output_dir).total
    ∧ ∀ f : String,
        ((batch_convert_sav_to_excel parse write sav_files output_dir).successful.map
            SuccessEntry.input).count f
          + ((batch_convert_sav_to_excel parse write sav_files output_dir).failed.map
              FailEntry.input).count f
        = sav_files.count f := by
  obtain ⟨h1, h2, h3, h4⟩ := batchLoop_spec parse write output_dir sav_files
    { successful := [], failed := [], total := sav_files.length }
  unfold batch_convert_sav_to_excel
  constructor
  · rw [h4, h2, h3]
    simp
  · intro f
    rw [h1, h2]
    simp

/-! ## Claim C7 — batch failure isolation

The spec expects a corrupt item to yield exactly one Failure entry while
the other items still succeed.  The orchestrator does keep processing
every item, and its loop body has an except branch meant to record
failures — but the engine it calls swallows every exception and returns
normally (see `convert_never_raised`), so that branch is dead code: a
corrupt input is appended to the successful list and the failed list
stays empty, contradicting the docstring of the orchestrator, the purpose
of its except branch, and the spec. -/

/-- C7: with the second of three inputs corrupt, the batch run records
all three — the corrupt one included — as successes, and the failed list
is empty instead of holding one Failure entry for the corrupt input. -/
theorem batch_corrupt_item_recorded_as_success :
    (batch_convert_sav_to_excel
        (fun f => if f == "corrupt.sav" then ParseOutcome.parseError "bad magic"
          else ParseOutcome.ok [])
        (fun _ => WriteOutcome.ok)
        ["good1.sav", "corrupt.sav", "good2.sav"] "Converted").failed = []
    ∧ ((batch_convert_sav_to_excel
        (fun f => if f == "corrupt.sav" then ParseOutcome.parseError "bad magic"
          else ParseOutcome.ok [])
        (fun _ => WriteOutcome.ok)
        ["good1.sav", "corrupt.sav", "good2.sav"] "Converted").successful.map
          SuccessEntry.input)
      = ["good1.sav", "corrupt.sav", "good2.sav"]
    ∧ (batch_convert_sav_to_excel
        (fun f => if f == "corrupt.sav" then ParseOutcome.parseError "bad magic"
          else ParseOutcome.ok [])
        (fun _ => WriteOutcome.ok)
        ["good1.sav", "corrupt.sav", "good2.sav"] "Converted").total = 3 :=
  ⟨rfl, rfl, rfl⟩

/-! ## Claim C8 — output directory creation is the only fatal gate -/

/-- C8: the orchestrator puts the output directory in place before any
item: when the directory is missing and creation fails the call raises
with no item attempted, and in every other case it returns the report
normally with all items processed — so directory creation is the only
condition under which the batch call raises. -/
theorem batch_directory_creation_gate (fs : DirFs) (parse : String → ParseOutcome)
    (write : String → WriteOutcome) (sav_files : List String) (output_dir : String) :
    (fs.dirExists = false → fs.mkdirOk = false →
      batch_convert_run fs parse write sav_files output_dir
        = { report := none, raisedMsg := some "makedirs failed", processed := [] })
    ∧ ((fs.dirExists = true ∨ fs.mkdirOk = true) →
      batch_convert_run fs parse write sav_files output_dir
        = { report := some (batch_convert_sav_to_excel parse write sav_files output_dir)
            raisedMsg := none
            processed := sav_files }) := by
  constructor
  · intro h1 h2
    unfold batch_convert_run
    rw [if_pos ⟨h1, h2⟩]
  · intro h
    have hcond : ¬(fs.dirExists = false ∧ fs.mkdirOk = false) := by
      rcases h with h | h <;> simp [h]
    unfold batch_convert_run
    rw [if_neg hcond]

/-- Witness for C8: both branches at concrete directory environments. -/
theorem batch_directory_creation_gate_witness :
    batch_convert_run { dirExists := false, mkdirOk := false }
        (fun _ => ParseOutcome.ok []) (fun _ => WriteOutcome.ok) ["a.sav"] "Converted"
      = { report := none, raisedMsg := some "makedirs failed", processed := [] }
    ∧ batch_convert_run { dirExists := true, mkdirOk := true }
        (fun _ => ParseOutcome.ok []) (fun _ => WriteOutcome.ok) ["a.sav"] "Converted"
      = { report := some (batch_convert_sav_to_excel (fun _ => ParseOutcome.ok [])
              (fun _ => WriteOutcome.ok) ["a.sav"] "Converted")
          raisedMsg := none
          processed := ["a.sav"] } :=
  ⟨(batch_directory_creation_gate _ _ _ _ _).1 rfl rfl,
   (batch_directory_creation_gate _ _ _ _ _).2 (Or.inl rfl)⟩

/-! ## Claims C9 and C10 — command-line path resolution -/

/-- The code-point comparison is total. -/
theorem charListLe_total : ∀ s t : List Char,
    charListLe s t = true ∨ charListLe t s = true := by
  intro s
  induction s with
  | nil => intro t; left; rfl
  | cons a as ih =>
    intro t
    cases t with
    | nil => right; rfl
    | cons b bs =>
      by_cases h1 : a.toNat < b.toNat
      · left; simp [charListLe, h1]
      · by_cases h2 : b.toNat < a.toNat
        · right; simp [charListLe, h2]
        · rcases ih bs with h | h
          · left; simp [charListLe, h1, h2, h]
          · right; simp [charListLe, h1, h2, h]

/-- The code-point comparison is transitive. -/
theorem charListLe_trans : ∀ s t u : List Char,
    charListLe s t = true → charListLe t u = true → charListLe s u = true := by
  intro s
  induction s with
  | nil => intro t u _ _; rfl
  | cons a as ih =>
    intro t u hst htu
    cases t with
    | nil => simp [charListLe] at hst
    | cons b bs =>
      cases u with
      | nil => simp [charListLe] at htu
      | cons c cs =>
        by_cases hab : a.toNat < b.toNat
        · by_cases hbc : b.toNat < c.toNat
          · simp [charListLe, Nat.lt_trans hab hbc]
          · by_cases hcb : c.toNat < b.toNat
            · simp [charListLe, hbc, hcb] at htu
            · have hac : a.toNat < c.toNat := by omega
              simp [charListLe, hac]
        · by_cases hba : b.toNat < a.toNat
          · simp [charListLe, hab, hba] at hst
          · by_cases hbc : b.toNat < c.toNat
            · have hac : a.toNat < c.toNat := by omega
              simp [charListLe, hac]
            · by_cases hcb : c.toNat < b.toNat
              · simp [charListLe, hbc, hcb] at htu
              · have hac : ¬a.toNat < c.toNat := by omega
                have hca : ¬c.toNat < a.toNat := by omega
                simp [charListLe, hab, hba] at hst
                simp [charListLe, hbc, hcb] at htu
                simp [charListLe, hac, hca]
                exact ih bs cs hst htu

instance : IsTotal String (fun a b => stringLe a b = true) :=
  ⟨fun a b => charListLe_total a.toList b.toList⟩

instance : IsTrans String (fun a b => stringLe a b = true) :=
  ⟨fun _ _ _ h1 h2 => charListLe_trans _ _ _ h1 h2⟩

/-- The resolved file list is sorted in lexicographic code-point order. -/
theorem resolveSavFiles_sorted (fs : CliFs) (args : List String) :
    List.Sorted (fun a b => stringLe a b = true) (resolveSavFiles fs args) :=
  List.sorted_insertionSort _ _

/-- The resolved file list is duplicate-free. -/
theorem resolveSavFiles_nodup (fs : CliFs) (args : List String) :
    (resolveSavFiles fs args).Nodup :=
  (List.perm_insertionSort _ _).symm.nodup (List.nodup_dedup _)

/-- Membership in the collected list before dedup and sort: a walked
file of a directory argument passing the case-insensitive extension
test, or a non-directory argument itself. -/
theorem mem_collectSavFiles (fs : CliFs) (args : List String) (p : String) :
    p ∈ collectSavFiles fs args ↔
      ∃ a ∈ args, (fs.isDir a = true ∧ p ∈ fs.walk a
          ∧ strEndsWith (strLower p) ".sav" = true)
        ∨ (fs.isDir a = false ∧ p = a) := by
  induction args with
  | nil => simp [collectSavFiles]
  | cons a rest ih =>
    by_cases h : fs.isDir a
    · simp [collectSavFiles, h, List.mem_filter, ih, List.exists_mem_cons_iff]
    · simp [collectSavFiles, h, ih, List.exists_mem_cons_iff]

/-- Dedup and sort change membership in neither direction. -/
theorem mem_resolveSavFiles (fs : CliFs) (args : List String) (p : String) :
    p ∈ resolveSavFiles fs args ↔ p ∈ collectSavFiles fs args := by
  unfold resolveSavFiles
  rw [(List.perm_insertionSort _ _).mem_iff, List.mem_dedup]

/-- C9: the resolved file list is sorted lexicographically and
duplicate-free; it contains exactly the case-insensitively matching .sav
files of expanded directory arguments together with all non-directory
arguments; when it is empty the CLI reports no files found and exits with
status 1, otherwise it proceeds with exactly that list. -/
theorem cli_resolution_spec (fs : CliFs) (args : List String) :
    List.Sorted (fun a b => stringLe a b = true) (resolveSavFiles fs args)
    ∧ (resolveSavFiles fs args).Nodup
    ∧ (∀ p, p ∈ resolveSavFiles fs args ↔
        ∃ a ∈ args, (fs.isDir a = true ∧ p ∈ fs.walk a
            ∧ strEndsWith (strLower p) ".sav" = true)
          ∨ (fs.isDir a = false ∧ p = a))
    ∧ (resolveSavFiles fs args = [] →
        cliMain fs args = CliOutcome.noFiles "No .sav files found!" 1)
    ∧ (resolveSavFiles fs args ≠ [] →
        cliMain fs args = CliOutcome.run (resolveSavFiles fs args)) := by
  refine ⟨resolveSavFiles_sorted fs args, resolveSavFiles_nodup fs args,
    fun p => (mem_resolveSavFiles fs args p).trans (mem_collectSavFiles fs args p),
    ?_, ?_⟩
  · intro h
    show (if (resolveSavFiles fs args).isEmpty then
        CliOutcome.noFiles "No .sav files found!" 1
      else CliOutcome.run (resolveSavFiles fs args)) = _
    rw [h]
    rfl
  · intro h
    show (if (resolveSavFiles fs args).isEmpty then
        CliOutcome.noFiles "No .sav files found!" 1
      else CliOutcome.run (resolveSavFiles fs args))
      = CliOutcome.run (resolveSavFiles fs args)
    cases hres : resolveSavFiles fs args with
    | nil => exact absurd hres h
    | cons x xs => rfl

/-- Witness for C9: a directory with no matching file triggers the
no-files exit, and a directory with one (upper-case) matching file and
one non-matching file resolves to exactly the matching file. -/
theorem cli_resolution_spec_witness :
    cliMain { dirs := [("edir", ["edir/x.txt"])] } ["edir"]
      = CliOutcome.noFiles "No .sav files found!" 1
    ∧ cliMain { dirs := [("ddir", ["ddir/a.SAV", "ddir/b.txt"])] } ["ddir"]
      = CliOutcome.run ["ddir/a.SAV"] := by
  constructor
  · exact (cli_resolution_spec { dirs := [("edir", ["edir/x.txt"])] } ["edir"]).2.2.2.1
      (by decide)
  · have h := (cli_resolution_spec { dirs := [("ddir", ["ddir/a.SAV", "ddir/b.txt"])] }
      ["ddir"]).2.2.2.2 (by decide)
    rw [h]
    rfl

/-- C10: a non-directory argument is appended to the resolved list
unconditionally — the extension filter is applied only to files found
inside expanded directories, so the argument need not end in .sav. -/
theorem nondirectory_argument_unfiltered (fs : CliFs) (args : List String) (p : String)
    (hdir : fs.isDir p = false) (hmem : p ∈ args) :
    p ∈ resolveSavFiles fs args := by
  rw [mem_resolveSavFiles, mem_collectSavFiles]
  exact ⟨p, hmem, Or.inr ⟨hdir, rfl⟩⟩

/-- Witness for C10: a directly named .txt file survives resolution. -/
theorem nondirectory_argument_unfiltered_witness :
    "data.txt" ∈ resolveSavFiles { dirs := [] } ["data.txt"] :=
  nondirectory_argument_unfiltered { dirs := [] } ["data.txt"] "data.txt" rfl
    (by decide)
